import Mathlib

/-
  Verification of the status-page monitoring engine (src/app.py).

  The Python source is shallowly embedded below: pure functions become Lean
  functions, the module-level mutable globals (`service_status`,
  `response_times`, `last_check_time`) become an explicit `MonitorState`
  threaded through `monitor_services`, network I/O becomes an explicit
  `RequestOutcome` input, and file I/O becomes an explicit `ConfigFile`
  input.  Python timestamps are modelled as integers (seconds); the calendar
  date of a timestamp (`datetime.fromtimestamp(...).strftime('%Y-%m-%d')`)
  is modelled as the floor-division day index `dateOf`.  Python `round(x, 2)`
  on the rational averages is modelled as `round2`.
-/

/-- Day index of a Unix timestamp: `datetime.fromtimestamp(ts)` rendered at
day granularity.  Subtracting `timedelta(days=1)` from a naive datetime
decreases this index by exactly one, which is all the source relies on. -/
def dateOf (ts : Int) : Int := Int.fdiv ts 86400

/-- Python truthiness of an optional number, used by the source in guards
such as `if incident.get('StartedAt'):` — absent and `0` are both falsy. -/
def truthy : Option Int → Bool
  | none => false
  | some t => t ≠ 0

/-- The `priority_map` dictionary of `get_status_color` in src/app.py:
`{4: 'major-outage', 3: 'partial-outage', 5: 'maintenance', 2: 'degraded',
6: 'investigating', 1: 'operational'}`, with `.get` misses as `none`. -/
def priority_map (status_id : Int) : Option String :=
  if status_id = 4 then some "major-outage"
  else if status_id = 3 then some "partial-outage"
  else if status_id = 5 then some "maintenance"
  else if status_id = 2 then some "degraded"
  else if status_id = 6 then some "investigating"
  else if status_id = 1 then some "operational"
  else none

/-- Embeds `get_status_color` from src/app.py.  For a nonempty id list the
source sets `highest_priority = min(status_ids)`, then runs a loop that
replaces it by any ranked id that is strictly smaller, and finally looks the
result up in `priority_map` with default `'operational'`. -/
def get_status_color (status_ids : List Int) : String :=
  match status_ids with
  | [] => "operational"
  | x :: xs =>
    let m := xs.foldl min x
    let highest_priority := (x :: xs).foldl
      (fun hp status_id =>
        if status_id ∈ ([4, 3, 5, 2, 6] : List Int) ∧ status_id < hp then status_id
        else hp) m
    (priority_map highest_priority).getD "operational"

/-- Outcome of the single `requests.get(url, timeout=5)` call inside
`check_service_health`: either a response with a status code and a measured
elapsed time in milliseconds, or one of the three caught exception kinds. -/
inductive RequestOutcome where
  | success (status_code : Int) (elapsed_ms : ℚ)
  | timeout
  | connectionError
  | otherError
deriving DecidableEq, Repr

/-- The dictionary `{'status': ..., 'response_time': ...}` returned by
`check_service_health`. -/
structure HealthResult where
  status : String
  response_time : Option ℚ
deriving DecidableEq, Repr

/-- Embeds `check_service_health` from src/app.py: classify the request
outcome.  Totality of this function reflects the source's `except` chain
ending in a bare `except Exception`, which returns a classified result for
every failure instead of propagating it. -/
def check_service_health : RequestOutcome → HealthResult
  | .success status_code elapsed_ms =>
    if status_code = 200 then ⟨"operational", some elapsed_ms⟩
    else if status_code ∈ ([500, 502, 503, 504] : List Int) then ⟨"major", some elapsed_ms⟩
    else ⟨"degraded", some elapsed_ms⟩
  | .timeout => ⟨"degraded", some 5000⟩
  | .connectionError => ⟨"major", none⟩
  | .otherError => ⟨"investigating", none⟩

/-- One append to the global `response_times = deque(maxlen=100)`: when the
deque is full the oldest element is evicted before the new one is appended. -/
def deque_append (w : List ℚ) (x : ℚ) : List ℚ :=
  if w.length < 100 then w ++ [x] else w.drop 1 ++ [x]

/-- A `StatusTypes` entry of config.json. -/
structure StatusTypeEntry where
  StatusID : Int
  Status : String
deriving DecidableEq, Repr

/-- A `StatusCategories` entry of config.json. -/
structure StatusCategoryEntry where
  CategoryID : Int
  CategoryName : String
deriving DecidableEq, Repr

/-- A `CurrentStatuses` / `PastIncidents` entry of config.json.  Fields the
source reads with `.get(...)` are optional. -/
structure Incident where
  StatusTitle : Option String
  StatusDescription : Option String
  By : Option String
  StartedAt : Option Int
  FixedAt : Option Int
  StatusID : List Int
  CategoryID : List Int
deriving DecidableEq, Repr

/-- The parsed configuration document. -/
structure Config where
  ShowStatuses : Bool
  StatusCategories : List StatusCategoryEntry
  StatusTypes : List StatusTypeEntry
  CurrentStatuses : List Incident
  PastIncidents : List Incident
deriving DecidableEq, Repr

/-- The safe empty configuration literal returned by `load_config` when the
file is missing. -/
def emptyConfig : Config :=
  { ShowStatuses := false
    StatusCategories := []
    StatusTypes := []
    CurrentStatuses := []
    PastIncidents := [] }

/-- State of the config file on disk, as seen by `load_config`: present and
parseable, present but not valid JSON, or absent. -/
inductive ConfigFile where
  | present (c : Config)
  | presentMalformed
  | missing
deriving DecidableEq, Repr

/-- Result of a call to `load_config`: a returned configuration, or an
uncaught exception propagating to the caller. -/
inductive LoadResult where
  | ok (c : Config)
  | raises
deriving DecidableEq, Repr

/-- Embeds `load_config` from src/app.py.  The source's `try` block catches
only `FileNotFoundError`; a present but malformed file makes `json.load`
raise `json.JSONDecodeError`, which no handler catches. -/
def load_config : ConfigFile → LoadResult
  | .present c => .ok c
  | .presentMalformed => .raises
  | .missing => .ok emptyConfig

/-- Python `round(x, 2)` modelled on the rationals: round to the nearest
hundredth.  (The exact half-way tie rule never matters for the claims.) -/
def round2 (q : ℚ) : ℚ := ((round (q * 100) : ℤ) : ℚ) / 100

/-- A dictionary write `service_status[name] = result` on an association
list: overwrite the entry if the key is present, else append it. -/
def set_status : List (String × HealthResult) → String → HealthResult →
    List (String × HealthResult)
  | [], name, r => [(name, r)]
  | (k, v) :: rest, name, r =>
    if k = name then (k, r) :: rest else (k, v) :: set_status rest name r

/-- The module-level mutable globals of src/app.py gathered into one state
record: `service_status`, `response_times` and `last_check_time`. -/
structure MonitorState where
  service_status : List (String × HealthResult)
  response_times : List ℚ
  last_check_time : ℚ
deriving DecidableEq, Repr

/-- Embeds `monitor_services` from src/app.py.  The endpoint dictionary is
modelled as a list of (name, request outcome) pairs; the loop stores each
health result into `service_status` and accumulates `total_response_time`
and `successful_checks` over the results whose `response_time` is not none.
If at least one check succeeded, the rounded average is appended to the
bounded `response_times` deque; `last_check_time` is set unconditionally. -/
def monitor_services (endpoints : List (String × RequestOutcome)) (now : ℚ)
    (s : MonitorState) : MonitorState :=
  let loop := endpoints.foldl
    (fun (acc : List (String × HealthResult) × ℚ × ℕ) e =>
      let result := check_service_health e.2
      ( set_status acc.1 e.1 result,
        match result.response_time with
        | some rt => (acc.2.1 + rt, acc.2.2 + 1)
        | none => acc.2 ))
    (s.service_status, (0 : ℚ), (0 : ℕ))
  let response_times' :=
    if 0 < loop.2.2 then
      deque_append s.response_times (round2 (loop.2.1 / (loop.2.2 : ℚ)))
    else s.response_times
  { service_status := loop.1
    response_times := response_times'
    last_check_time := now }

/-- Embeds `calculate_uptime` from src/app.py: `99.98` while
`service_status` is empty, otherwise the rounded percentage of entries whose
latest status is `'operational'`.  The inner `total_services == 0` test of
the source is kept even though it is unreachable. -/
def calculate_uptime (service_status : List (String × HealthResult)) : ℚ :=
  if service_status = [] then 99.98
  else
    let operational_services :=
      (service_status.filter (fun p => p.2.status == "operational")).length
    let total_services := service_status.length
    if total_services = 0 then 99.98
    else round2 (((operational_services : ℚ) / (total_services : ℚ)) * 100)

/-- The incident-type / day-status classification chain that
`generate_90_day_history` applies to an entry's `StatusID` list:
`4 → 'major'`, else `3 → 'partial'`, else `2 → 'degraded'`, else
`5 → 'maintenance'`, else `'investigating'`. -/
def status_from_ids (status_ids : List Int) : String :=
  if 4 ∈ status_ids then "major"
  else if 3 ∈ status_ids then "partial"
  else if 2 ∈ status_ids then "degraded"
  else if 5 ∈ status_ids then "maintenance"
  else "investigating"

/-- One per-incident summary dictionary appended to
`incident_map[date_str]['incidents']`. -/
structure IncidentSummary where
  title : String
  itype : String
  description : String
  author : String
  started_at : Option Int
  fixed_at : Option Int
deriving DecidableEq, Repr

/-- One `incident_map` value: the day's status string and its accumulated
incident summaries. -/
structure DayData where
  status : String
  incidents : List IncidentSummary
deriving DecidableEq, Repr

/-- One element of the history list built by `generate_90_day_history`.
The `date` field holds the day index standing for the source's
`'%Y-%m-%d'` string. -/
structure DayRecord where
  date : Int
  status : String
  incidents : List IncidentSummary
  timestamp : Int
deriving DecidableEq, Repr

/-- Dictionary lookup `incident_map[date_str]` on the association list. -/
def lookupDate : List (Int × DayData) → Int → Option DayData
  | [], _ => none
  | (k, v) :: rest, d => if k = d then some v else lookupDate rest d

/-- The source's two-step dictionary update: if `date_str` is not yet a key,
insert `{'status': status, 'incidents': []}` for it; then append the summary
to `incident_map[date_str]['incidents']`. -/
def addIncident : List (Int × DayData) → Int → String → IncidentSummary →
    List (Int × DayData)
  | [], d, st, s => [(d, ⟨st, [s]⟩)]
  | (k, v) :: rest, d, st, s =>
    if k = d then (k, ⟨v.status, v.incidents ++ [s]⟩) :: rest
    else (k, v) :: addIncident rest d st s

/-- Guard of the past-incident loop: `if incident.get('StartedAt'):`. -/
def past_qualifies (inc : Incident) : Bool := truthy inc.StartedAt

/-- Guard of the current-status loop:
`if not status.get('FixedAt') and status.get('StartedAt'):`. -/
def current_qualifies (st : Incident) : Bool :=
  !truthy st.FixedAt && truthy st.StartedAt

/-- Day key of a qualifying entry:
`datetime.fromtimestamp(incident['StartedAt']).strftime('%Y-%m-%d')`. -/
def entry_date (inc : Incident) : Int := dateOf (inc.StartedAt.getD 0)

/-- Summary appended for a past incident (title default
`'Unknown Incident'`; `fixed_at` taken from the entry). -/
def past_summary (inc : Incident) : IncidentSummary :=
  { title := inc.StatusTitle.getD "Unknown Incident"
    itype := status_from_ids inc.StatusID
    description := inc.StatusDescription.getD ""
    author := inc.By.getD ""
    started_at := inc.StartedAt
    fixed_at := inc.FixedAt }

/-- Summary appended for a current unresolved status (title default
`'Ongoing Issue'`; `fixed_at` hard-coded to none). -/
def current_summary (st : Incident) : IncidentSummary :=
  { title := st.StatusTitle.getD "Ongoing Issue"
    itype := status_from_ids st.StatusID
    description := st.StatusDescription.getD ""
    author := st.By.getD ""
    started_at := st.StartedAt
    fixed_at := none }

/-- The `incident_map` built by the first half of
`generate_90_day_history`: the past-incident loop followed by the
current-status loop, each indexing qualifying entries by day. -/
def build_incident_map (c : Config) : List (Int × DayData) :=
  c.CurrentStatuses.foldl
    (fun m st =>
      if current_qualifies st then
        addIncident m (entry_date st) (status_from_ids st.StatusID) (current_summary st)
      else m)
    (c.PastIncidents.foldl
      (fun m inc =>
        if past_qualifies inc then
          addIncident m (entry_date inc) (status_from_ids inc.StatusID) (past_summary inc)
        else m) [])

/-- The status stored in the incident map for a given day, if the day is
indexed. -/
def statusAt (m : List (Int × DayData)) (d : Int) : Option String :=
  (lookupDate m d).map DayData.status

/-- Loop body of the 90-day walk: the record for one date, real incident
data when the date is indexed, else an operational day. -/
def day_record_for (incident_map : List (Int × DayData)) (date : Int)
    (timestamp : Int) : DayRecord :=
  match lookupDate incident_map date with
  | some day_data => ⟨date, day_data.status, day_data.incidents, timestamp⟩
  | none => ⟨date, "operational", [], timestamp⟩

/-- Embeds `generate_90_day_history` from src/app.py with `datetime.now()`
made an explicit `today` timestamp.  Day `i` of the loop is
`today - timedelta(days=i)`, so its day index is `dateOf today - i` and its
record timestamp is `today - 86400*i`; the list is reversed at the end so
the result is chronological. -/
def generate_90_day_history (c : Config) (today : Int) : List DayRecord :=
  ((List.range 90).map (fun (i : ℕ) =>
    day_record_for (build_incident_map c) (dateOf today - (i : Int))
      (today - 86400 * (i : Int)))).reverse

/-- The qualifying entries of the incident log in the order the source
indexes them: qualifying past incidents first, then qualifying current
statuses. -/
def qualifying_entries (c : Config) : List Incident :=
  c.PastIncidents.filter past_qualifies ++ c.CurrentStatuses.filter current_qualifies

/-- Modelled from the spec, for comparison only (claim C2): the section 4.3
severity resolver as the spec words it — the fixed ranking table
Major(4) > Partial(3) > Maintenance(5) > Degraded(2) > Investigating(6) >
Operational(1, default for the empty set) — rendered in the timeline's
status vocabulary. -/
def resolve_severity_spec (ids : List Int) : String :=
  if 4 ∈ ids then "major"
  else if 3 ∈ ids then "partial"
  else if 5 ∈ ids then "maintenance"
  else if 2 ∈ ids then "degraded"
  else if 6 ∈ ids then "investigating"
  else "operational"

/-- A past incident with a Partial Outage id (3), started at timestamp
100000 (day index 1). -/
def incPartial : Incident :=
  { StatusTitle := some "Partial outage"
    StatusDescription := some "desc"
    By := some "ops"
    StartedAt := some 100000
    FixedAt := some 200000
    StatusID := [3]
    CategoryID := [] }

/-- A past incident with a Major Outage id (4), started at timestamp 100010
(also day index 1). -/
def incMajor : Incident :=
  { StatusTitle := some "Major outage"
    StatusDescription := some "desc"
    By := some "ops"
    StartedAt := some 100010
    FixedAt := some 200000
    StatusID := [4]
    CategoryID := [] }

/-- Incident log holding the Partial entry before the Major entry, both on
the same calendar day. -/
def cfgPartialFirst : Config :=
  { ShowStatuses := true
    StatusCategories := []
    StatusTypes := []
    CurrentStatuses := []
    PastIncidents := [incPartial, incMajor] }

/-- The same incident log with the two entries in the opposite order. -/
def cfgMajorFirst : Config :=
  { ShowStatuses := true
    StatusCategories := []
    StatusTypes := []
    CurrentStatuses := []
    PastIncidents := [incMajor, incPartial] }

/-- Incident log holding only the Major entry. -/
def cfgOneIncident : Config :=
  { ShowStatuses := true
    StatusCategories := []
    StatusTypes := []
    CurrentStatuses := []
    PastIncidents := [incMajor] }

/-- The day record that `generate_90_day_history cfgOneIncident 100000`
emits for its newest day (day index 1, loop index 0). -/
def recMajorDay : DayRecord :=
  { date := 1
    status := "major"
    incidents := [past_summary incMajor]
    timestamp := 100000 }

/-
  Theorems.
-/

/-- Claim C1 (code bug evidence).  The priority comment above
`get_status_color` and the spec's ranking table require Major to win in
`[4, 1, 2]` and `[4, 1]` and Maintenance to beat Degraded in `[2, 5]`, but
the initialisation `highest_priority = min(status_ids)` makes the
subsequent lowering loop a no-op, so the function returns the class of the
numeric minimum: `'operational'` for `[4, 1, 2]` and `[4, 1]`, `'degraded'`
for `[2, 5]`.  The empty-set and singleton examples of the claim do hold. -/
theorem get_status_color_numeric_min :
    get_status_color [4, 1, 2] = "operational" ∧
    get_status_color [4, 1] = "operational" ∧
    get_status_color [2, 5] = "degraded" ∧
    get_status_color [3, 4] = "partial-outage" ∧
    get_status_color [] = "operational" ∧
    get_status_color [6] = "investigating" := by decide

/-- Claim C3 (counterexample).  The claim says any 2xx response is
classified Operational, but `check_service_health` compares the status code
against exactly 200; a 201 response is classified `'degraded'`. -/
theorem check_service_health_2xx_counterexample :
    check_service_health (.success 201 100) = ⟨"degraded", some 100⟩ ∧
    (check_service_health (.success 201 100)).status ≠ "operational" := by decide

/-- Claim C3 (amended).  For a received HTTP response,
`check_service_health` classifies by status code: exactly 200 yields
`'operational'`; one of 500, 502, 503, 504 yields `'major'`; every other
code — including 2xx codes other than 200 — yields `'degraded'`; in all
three cases the measured response time is returned (non-none). -/
theorem check_service_health_classification (code : Int) (rt : ℚ) :
    (code = 200 → check_service_health (.success code rt) = ⟨"operational", some rt⟩) ∧
    (code ∈ ([500, 502, 503, 504] : List Int) →
      check_service_health (.success code rt) = ⟨"major", some rt⟩) ∧
    (code ≠ 200 → code ∉ ([500, 502, 503, 504] : List Int) →
      check_service_health (.success code rt) = ⟨"degraded", some rt⟩) := by
  refine ⟨fun h => ?_, fun h => ?_, fun h h' => ?_⟩
  · simp [check_service_health, h]
  · have h200 : code ≠ 200 := by rintro rfl; simp at h
    simp [check_service_health, h200, h]
  · simp [check_service_health, h, h']

/-- Witness for the amended claim C3, exercising all three branches: a 200
response, a 503 response and a 201 response. -/
theorem check_service_health_classification_witness :
    check_service_health (.success 200 8) = ⟨"operational", some 8⟩ ∧
    check_service_health (.success 503 12) = ⟨"major", some 12⟩ ∧
    check_service_health (.success 201 7) = ⟨"degraded", some 7⟩ :=
  ⟨(check_service_health_classification 200 8).1 rfl,
   (check_service_health_classification 503 12).2.1 (by decide),
   (check_service_health_classification 201 7).2.2 (by decide) (by decide)⟩

/-- Claim C4.  Every failed request is returned as a classified result —
the embedding of the `except` chain is total, so no fault reaches the
caller: a timeout yields `'degraded'` with response time 5000, a connection
failure yields `'major'` with no response time, and any other failure
yields `'investigating'` with no response time. -/
theorem check_service_health_failure_modes :
    check_service_health .timeout = ⟨"degraded", some 5000⟩ ∧
    check_service_health .connectionError = ⟨"major", none⟩ ∧
    check_service_health .otherError = ⟨"investigating", none⟩ := by decide

/-- Claim C7 (counterexample).  The claim says a malformed config file also
yields the safe empty configuration, but `load_config` catches only
`FileNotFoundError`: on malformed contents the `json.load` fault
propagates. -/
theorem load_config_malformed_counterexample :
    load_config .presentMalformed = .raises ∧
    load_config .presentMalformed ≠ .ok emptyConfig := by decide

/-- Claim C7 (amended).  A missing config file yields the safe empty
configuration `{ShowStatuses: false, StatusCategories: [], StatusTypes: [],
CurrentStatuses: [], PastIncidents: []}` without raising, while a present
but malformed file makes the parse fault propagate to the caller. -/
theorem load_config_fault_handling :
    load_config .missing = .ok emptyConfig ∧
    load_config .presentMalformed = .raises ∧
    emptyConfig.ShowStatuses = false ∧
    emptyConfig.StatusCategories = [] ∧
    emptyConfig.StatusTypes = [] ∧
    emptyConfig.CurrentStatuses = [] ∧
    emptyConfig.PastIncidents = [] := by decide

/-- The bounded deque after any sequence of appends starting from empty is
the suffix of the appended samples that fits in the capacity. -/
lemma deque_append_foldl (xs : List ℚ) :
    xs.foldl deque_append [] = xs.drop (xs.length - 100) := by
  induction xs using List.reverseRecOn with
  | nil => rfl
  | append_singleton ys x ih =>
    rw [List.foldl_append, List.foldl_cons, List.foldl_nil, ih, deque_append]
    simp only [List.length_append, List.length_cons, List.length_nil, Nat.zero_add]
    rcases Nat.lt_or_ge ys.length 100 with h | h
    · rw [Nat.sub_eq_zero_of_le (Nat.le_of_lt h), List.drop_zero, if_pos h,
        Nat.sub_eq_zero_of_le (by omega), List.drop_zero]
    · have hlen : (ys.drop (ys.length - 100)).length = 100 := by
        rw [List.length_drop]; omega
      rw [if_neg (by omega), List.drop_drop,
        List.drop_append_of_le_length (by omega)]
      have harith : ys.length - 100 + 1 = ys.length + 1 - 100 := by omega
      rw [harith]

/-- Claim C6.  The response-time window never exceeds 100 entries after any
sequence of appends, and eviction is FIFO: after appending 150 samples to
the empty window, exactly the first 50 have been evicted and the last 100
remain in order. -/
theorem response_time_window_fifo (xs ys : List ℚ) (h : xs.length = 150) :
    xs.foldl deque_append [] = xs.drop 50 ∧
    (ys.foldl deque_append []).length ≤ 100 := by
  constructor
  · rw [deque_append_foldl, h]
  · rw [deque_append_foldl, List.length_drop]
    omega

/-- Witness for claim C6 at a concrete sequence of 150 appended samples. -/
theorem response_time_window_fifo_witness :
    (List.replicate 150 (7 : ℚ)).foldl deque_append [] =
      (List.replicate 150 (7 : ℚ)).drop 50 ∧
    ((List.replicate 130 (3 : ℚ)).foldl deque_append []).length ≤ 100 :=
  response_time_window_fifo _ _ (by rw [List.length_replicate])

/-- The date field of a day record is the date it was built for, whether or
not the date is indexed. -/
lemma day_record_for_date (m : List (Int × DayData)) (d t : Int) :
    (day_record_for m d t).date = d := by
  unfold day_record_for
  cases lookupDate m d <;> rfl

/-- The 90-day history always holds exactly 90 records. -/
lemma generate_length (c : Config) (today : Int) :
    (generate_90_day_history c today).length = 90 := by
  simp [generate_90_day_history]

/-- Every element of the history is the day record of some loop index
below 90. -/
lemma generate_mem (c : Config) (today : Int) (r : DayRecord)
    (hr : r ∈ generate_90_day_history c today) :
    ∃ i : ℕ, i < 90 ∧
      r = day_record_for (build_incident_map c) (dateOf today - (i : Int))
            (today - 86400 * (i : Int)) := by
  unfold generate_90_day_history at hr
  rw [List.mem_reverse, List.mem_map] at hr
  obtain ⟨i, hi, hr⟩ := hr
  exact ⟨i, List.mem_range.mp hi, hr.symm⟩

/-- Chronological position `i` of the history holds the record built for
day `dateOf today - 89 + i`, with timestamp `today - 86400 * (89 - i)`. -/
lemma generate_getElem (c : Config) (today : Int) (i : ℕ) (hi : i < 90) :
    (generate_90_day_history c today)[i]? =
      some (day_record_for (build_incident_map c) (dateOf today - 89 + (i : Int))
        (today - 86400 * (89 - (i : Int)))) := by
  unfold generate_90_day_history
  rw [List.getElem?_reverse (by simpa using hi), List.length_map, List.length_range,
    List.getElem?_map, List.getElem?_range (by omega), Option.map_some']
  have h0 : (90 : ℕ) - 1 - i = 89 - i := by omega
  rw [h0]
  have h1 : ((89 - i : ℕ) : Int) = 89 - (i : Int) := by omega
  rw [h1]
  have h2 : dateOf today - (89 - (i : Int)) = dateOf today - 89 + (i : Int) := by ring
  rw [h2]

/-- The dates of the history are the 90 consecutive day indices ending at
the current day, oldest first. -/
lemma generate_map_date (c : Config) (today : Int) :
    (generate_90_day_history c today).map DayRecord.date =
      (List.range 90).map (fun (i : ℕ) => dateOf today - 89 + (i : Int)) := by
  apply List.ext_getElem?
  intro i
  rcases Nat.lt_or_ge i 90 with hi | hi
  · rw [List.getElem?_map, generate_getElem c today i hi, Option.map_some',
      day_record_for_date, List.getElem?_map, List.getElem?_range hi, Option.map_some']
  · rw [List.getElem?_eq_none, List.getElem?_eq_none]
    · rw [List.length_map, List.length_range]; omega
    · rw [List.length_map, generate_length]; omega

/-- The dates of the history have no duplicates. -/
lemma generate_date_nodup (c : Config) (today : Int) :
    ((generate_90_day_history c today).map DayRecord.date).Nodup := by
  rw [generate_map_date]
  exact List.Nodup.map (fun a b h => by omega) (List.nodup_range 90)

/-- The dates of the history are strictly increasing, oldest first. -/
lemma generate_date_chain (c : Config) (today : Int) :
    List.Chain' (fun a b => a < b)
      ((generate_90_day_history c today).map DayRecord.date) := by
  rw [generate_map_date, List.chain'_iff_get]
  intro i h
  simp only [List.length_map, List.length_range] at h
  simp only [List.get_eq_getElem, List.getElem_map, List.getElem_range]
  omega

/-- Claim C5.  `generate_90_day_history` returns exactly 90 day records; the
record at chronological position `i` covers day `dateOf today - 89 + i`, so
the records run over the 90 consecutive days ending at the current day
inclusive, in strictly increasing date order with no duplicate dates; and
every record whose date is not indexed in the incident map carries status
`'operational'` and an empty incident list. -/
theorem timeline_ninety_days (c : Config) (today : Int) (i : ℕ) (hi : i < 90)
    (r : DayRecord) (hr : r ∈ generate_90_day_history c today)
    (hnone : lookupDate (build_incident_map c) r.date = none) :
    (generate_90_day_history c today).length = 90 ∧
    ((generate_90_day_history c today)[i]?).map DayRecord.date =
      some (dateOf today - 89 + (i : Int)) ∧
    ((generate_90_day_history c today).map DayRecord.date).Nodup ∧
    List.Chain' (fun a b => a < b)
      ((generate_90_day_history c today).map DayRecord.date) ∧
    r.status = "operational" ∧ r.incidents = [] := by
  refine ⟨generate_length c today, ?_, generate_date_nodup c today,
    generate_date_chain c today, ?_, ?_⟩
  · rw [generate_getElem c today i hi, Option.map_some', day_record_for_date]
  · obtain ⟨j, hj, rfl⟩ := generate_mem c today r hr
    rw [day_record_for_date] at hnone
    unfold day_record_for
    rw [hnone]
  · obtain ⟨j, hj, rfl⟩ := generate_mem c today r hr
    rw [day_record_for_date] at hnone
    unfold day_record_for
    rw [hnone]

/-- Witness for claim C5 at the empty configuration and current timestamp 0;
the oldest emitted record is the operational day with date -89. -/
theorem timeline_ninety_days_witness :
    (generate_90_day_history emptyConfig 0).length = 90 ∧
    ((generate_90_day_history emptyConfig 0)[0]?).map DayRecord.date =
      some (dateOf 0 - 89 + ((0 : ℕ) : Int)) ∧
    ((generate_90_day_history emptyConfig 0).map DayRecord.date).Nodup ∧
    List.Chain' (fun a b => a < b)
      ((generate_90_day_history emptyConfig 0).map DayRecord.date) ∧
    (⟨-89, "operational", [], -7689600⟩ : DayRecord).status = "operational" ∧
    (⟨-89, "operational", [], -7689600⟩ : DayRecord).incidents = [] :=
  timeline_ninety_days emptyConfig 0 0 (by decide)
    ⟨-89, "operational", [], -7689600⟩ (by decide) (by decide)

/-- Looking up the day just written by `addIncident`: a fresh day gets the
given status and the singleton summary list; an already-indexed day keeps
its stored status and appends the summary. -/
lemma lookup_addIncident_self (m : List (Int × DayData)) (d : Int) (st : String)
    (s : IncidentSummary) :
    lookupDate (addIncident m d st s) d =
      some (match lookupDate m d with
            | some v => ⟨v.status, v.incidents ++ [s]⟩
            | none => ⟨st, [s]⟩) := by
  induction m with
  | nil => simp [addIncident, lookupDate]
  | cons kv rest ih =>
    obtain ⟨k, v⟩ := kv
    by_cases hk : k = d
    · subst hk
      simp [addIncident, lookupDate]
    · simp [addIncident, lookupDate, hk, ih]

/-- `addIncident` leaves every other day's entry unchanged. -/
lemma lookup_addIncident_ne (m : List (Int × DayData)) (d d' : Int) (st : String)
    (s : IncidentSummary) (h : d ≠ d') :
    lookupDate (addIncident m d' st s) d = lookupDate m d := by
  induction m with
  | nil => simp [addIncident, lookupDate, Ne.symm h]
  | cons kv rest ih =>
    obtain ⟨k, v⟩ := kv
    by_cases hk : k = d'
    · subst hk
      simp [addIncident, lookupDate, Ne.symm h]
    · simp [addIncident, lookupDate, hk, ih]

/-- Effect of `addIncident` on the stored status of a day: a fresh day gets
the given status, an indexed day keeps the one it already has. -/
lemma statusAt_addIncident (m : List (Int × DayData)) (d' : Int) (st : String)
    (s : IncidentSummary) (d : Int) :
    statusAt (addIncident m d' st s) d =
      if d = d' then some ((statusAt m d').getD st) else statusAt m d := by
  by_cases h : d = d'
  · subst h
    rw [if_pos rfl]
    unfold statusAt
    rw [lookup_addIncident_self]
    cases lookupDate m d <;> rfl
  · rw [if_neg h]
    unfold statusAt
    rw [lookup_addIncident_ne m d d' st s h]

/-- Status stored for a day after a guarded `addIncident` fold: if the day
was already indexed its status survives the whole fold, otherwise it is the
classification of the first qualifying entry with that day. -/
lemma statusAt_foldl {α : Type} (l : List α) (q : α → Bool) (dkey : α → Int)
    (sval : α → String) (summ : α → IncidentSummary)
    (m0 : List (Int × DayData)) (d : Int) :
    statusAt (l.foldl
      (fun m a => if q a then addIncident m (dkey a) (sval a) (summ a) else m) m0) d =
      match statusAt m0 d with
      | some s => some s
      | none => ((l.filter q).find? (fun a => dkey a == d)).map sval := by
  induction l generalizing m0 with
  | nil =>
    simp only [List.foldl_nil, List.filter_nil, List.find?_nil, Option.map_none']
    cases statusAt m0 d <;> rfl
  | cons a l ih =>
    rw [List.foldl_cons]
    by_cases hq : q a
    · rw [if_pos hq, ih, statusAt_addIncident, List.filter_cons_of_pos hq]
      by_cases hd : d = dkey a
      · subst hd
        rw [if_pos rfl, List.find?_cons_of_pos _ (by simp)]
        cases statusAt m0 (dkey a) <;> rfl
      · rw [if_neg hd, List.find?_cons_of_neg _ (by simp [Ne.symm hd])]
    · rw [if_neg hq, ih, List.filter_cons_of_neg hq]

/-- The status the incident map stores for a day is the classification of
the first qualifying entry indexed at that day — qualifying past incidents
first, then qualifying current statuses, each in log order. -/
lemma statusAt_build (c : Config) (d : Int) :
    statusAt (build_incident_map c) d =
      ((qualifying_entries c).find? (fun inc => entry_date inc == d)).map
        (fun inc => status_from_ids inc.StatusID) := by
  have h1 := statusAt_foldl c.PastIncidents past_qualifies entry_date
    (fun inc => status_from_ids inc.StatusID) past_summary [] d
  have h2 := statusAt_foldl c.CurrentStatuses current_qualifies entry_date
    (fun inc => status_from_ids inc.StatusID) current_summary
    (c.PastIncidents.foldl
      (fun m inc =>
        if past_qualifies inc then
          addIncident m (entry_date inc) (status_from_ids inc.StatusID) (past_summary inc)
        else m) []) d
  unfold build_incident_map
  rw [h2, h1]
  unfold qualifying_entries
  rw [List.find?_append]
  cases hpf : (c.PastIncidents.filter past_qualifies).find?
      (fun inc => entry_date inc == d) <;>
    cases hcf : (c.CurrentStatuses.filter current_qualifies).find?
        (fun inc => entry_date inc == d) <;>
      simp [statusAt, lookupDate]

/-- Claim C2 (counterexample).  Two entries on the same day, Partial (3)
first and Major (4) second: the emitted day severity is `'partial'` — the
first entry's classification — while the spec's section 4.3 resolver over
the union {3, 4} gives `'major'`; and swapping the two entries in the log
changes the emitted severity to `'major'`, so the result is not independent
of entry order. -/
theorem timeline_day_severity_counterexample :
    ((generate_90_day_history cfgPartialFirst 100000).getLast?).map DayRecord.status =
      some "partial" ∧
    resolve_severity_spec [3, 4] = "major" ∧
    ((generate_90_day_history cfgMajorFirst 100000).getLast?).map DayRecord.status =
      some "major" := by decide

/-- Claim C2 (amended).  For every record of the 90-day history, the
severity is the if-chain classification (4 → major, else 3 → partial, else
2 → degraded, else 5 → maintenance, else investigating) of the status ids
of the FIRST qualifying entry indexed at that record's date — past
incidents before current statuses, each in log order — or `'operational'`
when no entry is indexed there; entries after the first never change the
day's severity, so it depends on log order rather than on the union of the
day's status ids. -/
theorem timeline_day_severity (c : Config) (today : Int) (r : DayRecord)
    (hr : r ∈ generate_90_day_history c today) :
    r.status =
      match (qualifying_entries c).find? (fun inc => entry_date inc == r.date) with
      | some inc => status_from_ids inc.StatusID
      | none => "operational" := by
  obtain ⟨i, hi, rfl⟩ := generate_mem c today r hr
  rw [day_record_for_date]
  have hs := statusAt_build c (dateOf today - (i : Int))
  unfold statusAt at hs
  unfold day_record_for
  cases hl : lookupDate (build_incident_map c) (dateOf today - (i : Int)) with
  | none =>
    rw [hl] at hs
    cases hf : (qualifying_entries c).find?
        (fun inc => entry_date inc == (dateOf today - (i : Int))) with
    | none => rfl
    | some inc => rw [hf] at hs; simp at hs
  | some dd =>
    rw [hl] at hs
    cases hf : (qualifying_entries c).find?
        (fun inc => entry_date inc == (dateOf today - (i : Int))) with
    | none => rw [hf] at hs; simp at hs
    | some inc =>
      rw [hf] at hs
      simp only [Option.map_some'] at hs
      exact Option.some.inj hs

/-- Witness for the amended claim C2: with a single Major incident in the
log, the newest day record carries severity `'major'`, the classification
of that (first and only) entry. -/
theorem timeline_day_severity_witness :
    recMajorDay.status =
      match (qualifying_entries cfgOneIncident).find?
        (fun inc => entry_date inc == recMajorDay.date) with
      | some inc => status_from_ids inc.StatusID
      | none => "operational" :=
  timeline_day_severity cfgOneIncident 100000 recMajorDay (by decide)

/-- The probe loop of `monitor_services` accumulates exactly the present
response times: the running total gains their sum and the success counter
gains their count. -/
lemma monitor_loop_acc (endpoints : List (String × RequestOutcome))
    (d0 : List (String × HealthResult)) (t0 : ℚ) (n0 : ℕ) :
    (endpoints.foldl
      (fun (acc : List (String × HealthResult) × ℚ × ℕ) e =>
        let result := check_service_health e.2
        ( set_status acc.1 e.1 result,
          match result.response_time with
          | some rt => (acc.2.1 + rt, acc.2.2 + 1)
          | none => acc.2 )) (d0, t0, n0)).2 =
      (t0 + (endpoints.filterMap (fun e => (check_service_health e.2).response_time)).sum,
       n0 + (endpoints.filterMap (fun e => (check_service_health e.2).response_time)).length) := by
  induction endpoints generalizing d0 t0 n0 with
  | nil => simp
  | cons e l ih =>
    rw [List.foldl_cons, List.filterMap_cons]
    cases h : (check_service_health e.2).response_time with
    | none =>
      simp only [h]
      rw [ih]
    | some rt =>
      simp only [h]
      rw [ih]
      simp only [Prod.mk.injEq, List.sum_cons, List.length_cons]
      constructor
      · ring
      · omega

/-- Claim C8.  In one aggregation pass the average is formed only over the
endpoints whose probe produced a response time: when no probe did, the
window is left untouched; when at least one did, exactly the rounded
average of the collected values is appended; and the last-check timestamp
is set to the pass time unconditionally in both cases. -/
theorem monitor_services_pass (endpoints : List (String × RequestOutcome))
    (now : ℚ) (s : MonitorState) :
    (monitor_services endpoints now s).last_check_time = now ∧
    (endpoints.filterMap (fun e => (check_service_health e.2).response_time) = [] →
      (monitor_services endpoints now s).response_times = s.response_times) ∧
    (endpoints.filterMap (fun e => (check_service_health e.2).response_time) ≠ [] →
      (monitor_services endpoints now s).response_times =
        deque_append s.response_times
          (round2
            ((endpoints.filterMap (fun e => (check_service_health e.2).response_time)).sum /
             ((endpoints.filterMap
                (fun e => (check_service_health e.2).response_time)).length : ℚ)))) := by
  refine ⟨rfl, ?_, ?_⟩
  · intro h
    simp only [monitor_services]
    rw [monitor_loop_acc, h]
    simp
  · intro h
    have hlen : 0 < (endpoints.filterMap
        (fun e => (check_service_health e.2).response_time)).length :=
      List.length_pos.mpr h
    simp only [monitor_services]
    rw [monitor_loop_acc]
    simp [hlen]

/-- Witness for claim C8 at a single endpoint whose probe measured 120 ms. -/
theorem monitor_services_pass_witness :
    (monitor_services [("API", RequestOutcome.success 200 120)] 7
      ⟨[], [], 0⟩).last_check_time = 7 ∧
    (monitor_services [("API", RequestOutcome.success 200 120)] 7
      ⟨[], [], 0⟩).response_times =
      deque_append (MonitorState.mk [] [] 0).response_times
        (round2
          (([("API", RequestOutcome.success 200 120)].filterMap
              (fun e => (check_service_health e.2).response_time)).sum /
           (([("API", RequestOutcome.success 200 120)].filterMap
              (fun e => (check_service_health e.2).response_time)).length : ℚ))) :=
  ⟨(monitor_services_pass [("API", RequestOutcome.success 200 120)] 7 ⟨[], [], 0⟩).1,
   (monitor_services_pass [("API", RequestOutcome.success 200 120)] 7 ⟨[], [], 0⟩).2.2
     (by decide)⟩

/-- Rounding the operational percentage to two decimals yields exactly 100
iff every entry counts as operational, for any service count below 20000;
the deployed monitor tracks 4 endpoints, far below that bound. -/
lemma round_ratio_eq_iff (op t : ℕ) (ht : 0 < t) (hb : t < 20000) (hle : op ≤ t) :
    round2 (((op : ℚ) / (t : ℚ)) * 100) = 100 ↔ op = t := by
  have ht' : (0 : ℚ) < (t : ℚ) := by exact_mod_cast ht
  unfold round2
  constructor
  · intro h
    have h10 : (round (((op : ℚ) / (t : ℚ)) * 100 * 100) : ℤ) = 10000 := by
      rw [div_eq_iff (by norm_num : (100 : ℚ) ≠ 0)] at h
      norm_num at h
      exact_mod_cast h
    rw [round_eq] at h10
    obtain ⟨hlow, _⟩ := Int.floor_eq_iff.mp h10
    have hrw : ((op : ℚ) / (t : ℚ)) * 100 * 100 = (op : ℚ) * 10000 / (t : ℚ) := by
      ring
    rw [hrw] at hlow
    push_cast at hlow
    have hy : (19999 : ℚ) / 2 ≤ (op : ℚ) * 10000 / (t : ℚ) := by linarith
    have hkey : (19999 : ℚ) * (t : ℚ) ≤ 20000 * (op : ℚ) := by
      have h2 := (le_div_iff₀ ht').mp hy
      linarith
    have hkeyn : 19999 * t ≤ 20000 * op := by exact_mod_cast hkey
    omega
  · intro h
    subst h
    rw [div_self (ne_of_gt ht'), one_mul]
    have h100 : ((100 : ℚ) * 100) = ((10000 : ℤ) : ℚ) := by norm_num
    rw [h100, round_intCast]
    norm_num

/-- Claim C10.  `calculate_uptime` returns the hard-coded fallback 99.98
while no pass has populated the service map; once populated it returns the
percentage of tracked services whose latest status is `'operational'`,
rounded to two decimals, and (for any realistic service count, in
particular the 4 configured endpoints) that rounded value is 100 exactly
when every service is operational. -/
theorem calculate_uptime_spec (m : List (String × HealthResult)) (hne : m ≠ [])
    (hsize : m.length < 20000) :
    calculate_uptime [] = 99.98 ∧
    calculate_uptime m =
      round2 ((((m.filter (fun p => p.2.status == "operational")).length : ℚ) /
        (m.length : ℚ)) * 100) ∧
    (calculate_uptime m = 100 ↔ ∀ p ∈ m, p.2.status = "operational") := by
  have hformula : calculate_uptime m =
      round2 ((((m.filter (fun p => p.2.status == "operational")).length : ℚ) /
        (m.length : ℚ)) * 100) := by
    simp only [calculate_uptime]
    rw [if_neg hne, if_neg (by simpa [List.length_eq_zero] using hne)]
  refine ⟨rfl, hformula, ?_⟩
  rw [hformula, round_ratio_eq_iff _ _ (List.length_pos.mpr hne) hsize
    (List.length_filter_le _ _), List.filter_length_eq_length]
  constructor
  · intro h p hp
    simpa using h p hp
  · intro h p hp
    simp [h p hp]

/-- Witness for claim C10 at a single operational service. -/
theorem calculate_uptime_spec_witness :
    calculate_uptime [] = 99.98 ∧
    calculate_uptime [("API", (⟨"operational", some 5⟩ : HealthResult))] =
      round2 (((([("API", (⟨"operational", some 5⟩ : HealthResult))].filter
          (fun p => p.2.status == "operational")).length : ℚ) /
        (([("API", (⟨"operational", some 5⟩ : HealthResult))] :
            List (String × HealthResult)).length : ℚ)) * 100) ∧
    (calculate_uptime [("API", (⟨"operational", some 5⟩ : HealthResult))] = 100 ↔
      ∀ p ∈ [("API", (⟨"operational", some 5⟩ : HealthResult))],
        p.2.status = "operational") :=
  calculate_uptime_spec [("API", ⟨"operational", some 5⟩)] (by decide) (by decide)
